import Mathlib

/-!
Verification of the GPIO line driver (onoff 0.2.2, `src/app.js`, second
embedded file) against its specification.

The embedding models the Watch Coordinator, Value Channel and Line
Configuration Store of the source.  JavaScript callbacks are identified by
natural-number ids; the listener array `this.listeners` becomes a
`List Nat` in registration order.  Calls made to the readiness poller
(`this.poller.add / modify / remove`) and to the filesystem are recorded
explicitly as values, so theorems can speak about exactly which external
calls each operation performs.  The poller registration count for the
line's descriptor is tracked as a `Nat` (`add` increments, `remove`
decrements), so "exactly one active registration" is expressible.
-/

namespace Onoff

/-- Event-mask bit for a priority/exceptional condition
(`Epoll.EPOLLPRI` in the epoll module used by the source). -/
def EPOLLPRI : Nat := 2

/-- Event-mask bit for a one-shot registration
(`Epoll.EPOLLONESHOT` in the epoll module used by the source). -/
def EPOLLONESHOT : Nat := 2 ^ 30

/-- `this.opts`: per-line watch options, from the constructor
(`src/app.js` lines 102-104).  `persistentWatch` defaults to `false`,
`debounceTimeout` to `0`; both defaults are applied by `||` in the source. -/
structure Opts where
  persistentWatch : Bool
  debounceTimeout : Nat
  deriving DecidableEq, Repr

/-- The mutable per-line watch state of a `Gpio` object: its options, the
listener array (callback ids, registration order) and the number of active
poller registrations for its value-file descriptor. -/
structure Gpio where
  opts : Opts
  listeners : List Nat
  regCount : Nat
  deriving DecidableEq, Repr

/-- A call made to the readiness poller for the line's descriptor. -/
inductive PollerCall where
  | add (events : Nat)
  | modify (events : Nat)
  | remove
  deriving DecidableEq, Repr

/-- The event mask computed by `Gpio.prototype.watch` on the zero-to-one
transition (`src/app.js` lines 196-199):
`events = EPOLLPRI; if (!persistentWatch || debounceTimeout > 0) events |= EPOLLONESHOT`. -/
def watchEvents (opts : Opts) : Nat :=
  let events := EPOLLPRI
  if (!opts.persistentWatch) || opts.debounceTimeout > 0 then
    events ||| EPOLLONESHOT
  else
    events

/-- `Gpio.prototype.watch` (`src/app.js` lines 190-202): push the callback;
if the listener array now has length 1, `poller.add(valueFd, events)`.
Returns the new state and the poller calls made. -/
def watch (g : Gpio) (cb : Nat) : Gpio × List PollerCall :=
  let g' : Gpio := { g with listeners := g.listeners ++ [cb] }
  if g'.listeners.length = 1 then
    ({ g' with regCount := g'.regCount + 1 }, [PollerCall.add (watchEvents g.opts)])
  else
    (g', [])

/-- `Gpio.prototype.unwatch` (`src/app.js` lines 207-221): if the listener
array is non-empty, either clear it (no callback argument, modelled as
`none`) or filter out entries identical to the given callback; if it
became empty, `poller.remove(valueFd)`. -/
def unwatch (g : Gpio) (cb : Option Nat) : Gpio × List PollerCall :=
  if g.listeners.length > 0 then
    let ls : List Nat :=
      match cb with
      | none => []
      | some c => g.listeners.filter (fun l => c ≠ l)
    let g' : Gpio := { g with listeners := ls }
    if ls.length = 0 then
      ({ g' with regCount := g'.regCount - 1 }, [PollerCall.remove])
    else
      (g', [])
  else
    (g, [])

/-- `Gpio.prototype.unwatchAll` (`src/app.js` lines 226-228): `this.unwatch()`. -/
def unwatchAll (g : Gpio) : Gpio × List PollerCall :=
  unwatch g none

/-- A public watch-coordinator operation, for stating the trace invariant. -/
inductive Op where
  | watchOp (cb : Nat)
  | unwatchOp (cb : Option Nat)
  | unwatchAllOp
  deriving DecidableEq, Repr

/-- Apply one public operation, discarding the recorded poller calls. -/
def applyOp (g : Gpio) (op : Op) : Gpio :=
  match op with
  | Op.watchOp cb => (watch g cb).1
  | Op.unwatchOp cb => (unwatch g cb).1
  | Op.unwatchAllOp => (unwatchAll g).1

/-- Run a sequence of public operations from a starting state. -/
def runOps (g : Gpio) (ops : List Op) : Gpio :=
  ops.foldl applyOp g

/-- The watch state of a freshly constructed `Gpio`
(`src/app.js` line 106: `this.listeners = []`; nothing registered yet). -/
def gpioInit (opts : Opts) : Gpio :=
  { opts := opts, listeners := [], regCount := 0 }

/-- The registration invariant: the descriptor has exactly one active
poller registration iff the listener set is non-empty. -/
def WatchInv (g : Gpio) : Prop :=
  g.regCount = if g.listeners.isEmpty then 0 else 1

instance (g : Gpio) : Decidable (WatchInv g) := by
  unfold WatchInv; infer_instance

/-- Outcome of one invocation of `pollerEventHandler`: debounce timers
scheduled (durations), poller calls made, and the listener invocations
performed, each as (callback id, error argument, value argument). -/
structure Delivery where
  timersScheduled : List Nat
  pollerCalls : List PollerCall
  invocations : List (Nat × Option String × Nat)
  deriving DecidableEq, Repr

/-- `callbacks.forEach(function (callback) { callback(err, value); })`
(`src/app.js` lines 248-250).  A callback may itself mutate the watch
state (e.g. call `watch`/`unwatch`), modelled by `act`; the state is
threaded through the invocations while the snapshot list is iterated. -/
def runCallbacks (act : Nat → Gpio → Gpio) (err : Option String) (value : Nat)
    (g : Gpio) : List Nat → Gpio × List (Nat × Option String × Nat)
  | [] => (g, [])
  | c :: cs =>
    let g' := act c g
    let r := runCallbacks act err value g' cs
    (r.1, (c, err, value) :: r.2)

/-- `pollerEventHandler` (`src/app.js` lines 230-251).  `value` is the
result of the `this.readSync()` at line 231; `callbacks` is the snapshot
`this.listeners.slice(0)`; if `persistentWatch && debounceTimeout > 0` a
timer of duration `debounceTimeout` is scheduled; if `!persistentWatch`,
`this.unwatchAll()`; finally every snapshotted callback is invoked with
`(err, value)`. -/
def pollerEventHandler (act : Nat → Gpio → Gpio) (err : Option String)
    (value : Nat) (g : Gpio) : Gpio × Delivery :=
  let callbacks := g.listeners
  let timers : List Nat :=
    if g.opts.persistentWatch && g.opts.debounceTimeout > 0 then
      [g.opts.debounceTimeout]
    else
      []
  let p : Gpio × List PollerCall :=
    if !g.opts.persistentWatch then unwatchAll g else (g, [])
  let r := runCallbacks act err value p.1 callbacks
  (r.1, { timersScheduled := timers, pollerCalls := p.2, invocations := r.2 })

/-- The body of the debounce timer scheduled by `pollerEventHandler`
(`src/app.js` lines 235-241): if listeners are still present, re-read the
value and `poller.modify(valueFd, EPOLLPRI | EPOLLONESHOT)`. -/
def debounceTimerBody (g : Gpio) : Gpio × List PollerCall :=
  if g.listeners.length > 0 then
    (g, [PollerCall.modify (EPOLLPRI ||| EPOLLONESHOT)])
  else
    (g, [])

/-!
## Timed system layer

The readiness facility itself is an external collaborator (the `epoll`
module); its semantics are modelled from the spec, §4.3: a registration
whose event mask includes the one-shot flag "automatically disarms the
registration after the first delivery, requiring an explicit
`modify`/re-`add` before the next interrupt is observed".  `Sys` couples a
`Gpio` with the facility's arming state, the pending debounce timers
(absolute fire times) and logs of scheduled timers, listener invocations
and re-arm (`modify`) calls.
-/

/-- A `Gpio` together with the readiness facility's per-descriptor state
and the event logs needed for the timed debounce scenario. -/
structure Sys where
  g : Gpio
  armed : Bool
  oneshotReg : Bool
  timers : List Nat
  timerLog : List (Nat × Nat)
  invocations : List (Nat × Option String × Nat)
  modifyLog : List Nat
  deriving DecidableEq, Repr

/-- Apply recorded poller calls to the facility state: `add`/`modify` arm
the registration (one-shot iff the mask contains `EPOLLONESHOT`),
`remove` disarms it. -/
def applyCalls (s : Sys) (calls : List PollerCall) : Sys :=
  calls.foldl
    (fun s c =>
      match c with
      | PollerCall.add ev => { s with armed := true, oneshotReg := ev &&& EPOLLONESHOT != 0 }
      | PollerCall.modify ev => { s with armed := true, oneshotReg := ev &&& EPOLLONESHOT != 0 }
      | PollerCall.remove => { s with armed := false })
    s

/-- The `Sys` after a fresh construction: nothing registered, no timers. -/
def sysInit (opts : Opts) : Sys :=
  { g := gpioInit opts, armed := false, oneshotReg := false, timers := []
    timerLog := [], invocations := [], modifyLog := [] }

/-- System-level `watch`: run `Gpio.prototype.watch` and apply its poller
calls to the facility state. -/
def watchSys (cb : Nat) (s : Sys) : Sys :=
  let r := watch s.g cb
  applyCalls { s with g := r.1 } r.2

/-- A kernel edge event at absolute time `t` with current value `value`.
If the registration is armed, the facility delivers: the handler runs
(callbacks are pure here), a one-shot registration disarms, scheduled
timers are recorded with their fire times; if the registration is not
armed (one-shot already consumed), nothing is delivered and the state is
unchanged. -/
def edgeEvent (t : Nat) (value : Nat) (s : Sys) : Sys :=
  if s.armed then
    let r := pollerEventHandler (fun _ st => st) none value s.g
    let s' : Sys :=
      { s with
        g := r.1
        armed := !s.oneshotReg
        timers := s.timers ++ r.2.timersScheduled.map (fun d => t + d)
        timerLog := s.timerLog ++ r.2.timersScheduled.map (fun d => (t, d))
        invocations := s.invocations ++ r.2.invocations }
    applyCalls s' r.2.pollerCalls
  else
    s

/-- A debounce timer due at absolute time `t` fires: its body runs
(`debounceTimerBody`); a resulting `modify` call re-arms the facility and
is logged at time `t`. -/
def fireTimer (t : Nat) (s : Sys) : Sys :=
  if t ∈ s.timers then
    let s' : Sys := { s with timers := s.timers.erase t }
    let r := debounceTimerBody s'.g
    let s'' := applyCalls { s' with g := r.1 } r.2
    if r.2.isEmpty then s'' else { s'' with modifyLog := s''.modifyLog ++ [t] }
  else
    s

/-!
## Value channel: read and write
-/

/-- `one = new Buffer('1')` (`src/app.js` line 65); byte 49 is ASCII `'1'`. -/
def one : List Nat := [49]

/-- `zero = new Buffer('0')` (`src/app.js` line 64); byte 48 is ASCII `'0'`. -/
def zero : List Nat := [48]

/-- `Gpio.prototype.read` (`src/app.js` lines 135-142), as the value the
caller-supplied callback observes.  `io` is the completion of
`fs.read(valueFd, buf, 0, 1, 0, ...)`: an error, or the byte read.
The source guards the whole completion body with
`typeof callback === 'function'`; with no callback (`callbackSupplied =
false`) nothing is observed, modelled as `none`. -/
def read (callbackSupplied : Bool) (io : Except String Nat) :
    Option (Except String Nat) :=
  if callbackSupplied then
    match io with
    | Except.error e => some (Except.error e)
    | Except.ok b => some (Except.ok (if b = 49 then 1 else 0))
  else
    none

/-- A JavaScript value passed as the `value` argument of `write`
or `writeSync`. -/
inductive JSVal where
  | num (n : Int)
  | str (s : String)
  | boolean (b : Bool)
  | undef
  | nullV
  deriving DecidableEq, Repr

/-- The arguments of the `fs.write`/`fs.writeSync` call made by
`Gpio.prototype.write`/`writeSync`: the buffer, the buffer offset, the
byte count, and the file position. -/
structure WriteCall where
  buf : List Nat
  bufOffset : Nat
  length : Nat
  position : Nat
  deriving DecidableEq, Repr

/-- `Gpio.prototype.writeSync` (`src/app.js` lines 170-175):
`writeBuffer = value === 1 ? one : zero;
fs.writeSync(valueFd, writeBuffer, 0, writeBuffer.length, 0)`.
JavaScript strict equality `value === 1` holds exactly for the number 1. -/
def writeSync (value : JSVal) : WriteCall :=
  let writeBuffer := if value = JSVal.num 1 then one else zero
  { buf := writeBuffer, bufOffset := 0, length := writeBuffer.length, position := 0 }

/-- `Gpio.prototype.write` (`src/app.js` lines 160-163): identical
buffer selection and `fs.write` arguments as `writeSync`. -/
def write (value : JSVal) : WriteCall :=
  let writeBuffer := if value = JSVal.num 1 then one else zero
  { buf := writeBuffer, bufOffset := 0, length := writeBuffer.length, position := 0 }

/-!
## Line Configuration Store: constructor filesystem actions
-/

/-- A filesystem action performed by the constructor. -/
inductive FSAction where
  | writeFile (path : String) (data : String)
  | chmod (path : String) (mode : Nat)
  deriving DecidableEq, Repr

/-- `gpioRootPath = '/sys/class/gpio/'` (`src/app.js` line 63). -/
def gpioRootPath : String := "/sys/class/gpio/"

/-- The sysfs directory of a line: `gpioRootPath + 'gpio' + gpio + '/'`. -/
def gpioPath (gpio : Nat) : String :=
  gpioRootPath ++ "gpio" ++ toString gpio ++ "/"

/-- The filesystem writes of the `Gpio` constructor
(`src/app.js` lines 110-119), given whether the line's sysfs directory
already exists (`fs.existsSync(this.gpioPath)`) and the edge mode after
the argument shuffle (`none` when no edge was supplied).  438 is the
octal mode 0666. -/
def constructorActions (gpio : Nat) (direction : String) (edge : Option String)
    (dirExists : Bool) : List FSAction :=
  if !dirExists then
    [FSAction.writeFile (gpioRootPath ++ "export") (toString gpio),
     FSAction.writeFile (gpioPath gpio ++ "direction") direction]
    ++ (match edge with
        | some e => [FSAction.writeFile (gpioPath gpio ++ "edge") e]
        | none => [])
    ++ [FSAction.chmod (gpioPath gpio ++ "value") 438]
  else
    []

/-!
## Options accessor
-/

/-- `Gpio.prototype.options` (`src/app.js` lines 276-278):
`return this.opts;`. -/
def options (g : Gpio) : Opts := g.opts

/-- In JavaScript, `return this.opts` returns a reference to the very
object stored in the `Gpio`; a caller that mutates the returned object is
mutating `this.opts` itself.  A caller mutation `f` applied through the
returned reference therefore updates the line's state like this. -/
def mutateReturnedOptions (g : Gpio) (f : Opts → Opts) : Gpio :=
  { g with opts := f g.opts }

/-!
## Helper lemmas
-/

/-- The invocation list of a delivery is the snapshot mapped to
`(callback, err, value)`, whatever the callbacks do to the state. -/
theorem runCallbacks_invocations (act : Nat → Gpio → Gpio) (err : Option String)
    (value : Nat) (g : Gpio) (cs : List Nat) :
    (runCallbacks act err value g cs).2 = cs.map (fun c => (c, err, value)) := by
  induction cs generalizing g with
  | nil => rfl
  | cons c cs ih => simp [runCallbacks, ih]

/-- Callbacks that do not mutate the watch state leave it unchanged. -/
theorem runCallbacks_id_state (err : Option String) (value : Nat) (g : Gpio)
    (cs : List Nat) :
    (runCallbacks (fun _ st => st) err value g cs).1 = g := by
  induction cs generalizing g with
  | nil => rfl
  | cons c cs ih => simp [runCallbacks, ih]

/-- Characterisation of `watch`: the callback is appended; the poller
`add` happens exactly on the empty-to-nonempty transition, and then the
registration count increments. -/
theorem watch_calls (g : Gpio) (cb : Nat) :
    (watch g cb).2
      = (if g.listeners.isEmpty then [PollerCall.add (watchEvents g.opts)] else [])
    ∧ (watch g cb).1.listeners = g.listeners ++ [cb]
    ∧ (watch g cb).1.regCount
      = (if g.listeners.isEmpty then g.regCount + 1 else g.regCount)
    ∧ (watch g cb).1.opts = g.opts := by
  cases h : g.listeners with
  | nil => simp [watch, h]
  | cons a as => simp [watch, h]

/-- Characterisation of `unwatch`: the poller `remove` happens exactly
when a non-empty listener set becomes empty, and then the registration
count decrements. -/
theorem unwatch_calls (g : Gpio) (c : Option Nat) :
    (unwatch g c).2
      = (if !g.listeners.isEmpty && (unwatch g c).1.listeners.isEmpty then
          [PollerCall.remove] else [])
    ∧ (unwatch g c).1.regCount
      = (if !g.listeners.isEmpty && (unwatch g c).1.listeners.isEmpty then
          g.regCount - 1 else g.regCount)
    ∧ (unwatch g c).1.opts = g.opts
    ∧ (g.listeners = [] → (unwatch g c).1 = g) := by
  cases c with
  | none =>
    simp only [unwatch]
    split
    · rename_i hl
      have hne : g.listeners ≠ [] := List.length_pos.mp hl
      simp [List.isEmpty_iff, hne]
    · rename_i hl
      have hl0 : g.listeners = [] := by
        rcases hg : g.listeners with _ | ⟨a, as⟩
        · rfl
        · rw [hg] at hl; simp at hl
      simp [hl0]
  | some x =>
    simp only [unwatch]
    split
    · rename_i hl
      have hne : g.listeners ≠ [] := List.length_pos.mp hl
      split
      · rename_i h0
        have hfe : g.listeners.filter (fun l => decide (x ≠ l)) = [] :=
          List.length_eq_zero.mp h0
        have hall : ∀ a ∈ g.listeners, x = a := by
          intro a ha
          have := List.filter_eq_nil_iff.mp hfe a ha
          simpa using this
        simp only [List.isEmpty_iff, hne, hfe]
        simp [if_pos hall, hne]
      · rename_i h0
        have hfe : ¬g.listeners.filter (fun l => decide (x ≠ l)) = [] :=
          fun hh => h0 (by rw [hh]; rfl)
        have hnall : ¬∀ a ∈ g.listeners, x = a := by
          intro hall
          apply hfe
          apply List.filter_eq_nil_iff.mpr
          intro a ha
          simpa using hall a ha
        simp only [List.isEmpty_iff, hne, hfe]
        simp [if_neg hnall, List.isEmpty_iff, hne, hfe]
    · rename_i hl
      have hl0 : g.listeners = [] := by
        rcases hg : g.listeners with _ | ⟨a, as⟩
        · rfl
        · rw [hg] at hl; simp at hl
      simp [hl0]

/-- Every public operation preserves the registration invariant. -/
theorem applyOp_watchInv (g : Gpio) (op : Op) (h : WatchInv g) :
    WatchInv (applyOp g op) := by
  unfold WatchInv at h ⊢
  cases op with
  | watchOp cb =>
    obtain ⟨_, h2, h3, _⟩ := watch_calls g cb
    simp only [applyOp, h2, h3]
    cases hl : g.listeners with
    | nil => simp [hl] at h ⊢; omega
    | cons a as => simp [hl] at h ⊢; omega
  | unwatchOp c =>
    obtain ⟨_, h2, _, h4⟩ := unwatch_calls g c
    simp only [applyOp]
    cases hl : g.listeners with
    | nil => simp only [h4 hl]; simpa [hl] using h
    | cons a as =>
      rw [h2]
      by_cases he : (unwatch g c).1.listeners.isEmpty
      · simp [hl, he] at h ⊢; omega
      · simp [hl, he] at h ⊢; omega
  | unwatchAllOp =>
    obtain ⟨_, h2, _, h4⟩ := unwatch_calls g none
    simp only [applyOp, unwatchAll]
    cases hl : g.listeners with
    | nil => simp only [h4 hl]; simpa [hl] using h
    | cons a as =>
      rw [h2]
      by_cases he : (unwatch g none).1.listeners.isEmpty
      · simp [hl, he] at h ⊢; omega
      · simp [hl, he] at h ⊢; omega

/-- The registration invariant holds along every run from a state that
satisfies it. -/
theorem runOps_watchInv (g : Gpio) (ops : List Op) (h : WatchInv g) :
    WatchInv (runOps g ops) := by
  induction ops generalizing g with
  | nil => exact h
  | cons op ops ih => exact ih (applyOp g op) (applyOp_watchInv g op h)

/-- A one-shot delivery (or `unwatchAll`) on a state satisfying the
invariant empties the listener set and leaves no registration. -/
theorem unwatchAll_clears (g : Gpio) (h : WatchInv g) :
    (unwatchAll g).1.listeners = [] ∧ (unwatchAll g).1.regCount = 0
    ∧ (g.listeners ≠ [] → (unwatchAll g).2 = [PollerCall.remove]) := by
  unfold WatchInv at h
  obtain ⟨h1, h2, _, h4⟩ := unwatch_calls g none
  unfold unwatchAll
  cases hl : g.listeners with
  | nil => simp only [h4 hl]; simp [hl] at h ⊢; omega
  | cons a as =>
    have hls : (unwatch g none).1.listeners = [] := by
      simp [unwatch, hl]
    refine ⟨hls, ?_, fun _ => ?_⟩
    · rw [h2]; simp [hl, hls] at h ⊢; omega
    · rw [h1]; simp [hl, hls]

/-!
## Claim theorems
-/

/-- C1: For every sequence of watch/unwatch/unwatchAll calls on a Line
starting from construction, the descriptor has exactly one active poller
registration iff the listener set is non-empty; moreover a `watch` call
makes a poller `add` exactly when the set goes from empty to one element,
and an `unwatch` call makes a poller `remove` exactly when the set
becomes empty. -/
theorem watch_unwatch_registration_invariant (opts : Opts) (ops : List Op) :
    WatchInv (runOps (gpioInit opts) ops)
    ∧ (∀ g cb, ((watch g cb).2 = [PollerCall.add (watchEvents g.opts)] ↔
          g.listeners = [])
        ∧ ((watch g cb).2 = [] ↔ g.listeners ≠ []))
    ∧ (∀ g c, ((unwatch g c).2 = [PollerCall.remove] ↔
          g.listeners ≠ [] ∧ (unwatch g c).1.listeners = [])
        ∧ ((unwatch g c).2 = [] ↔
          ¬(g.listeners ≠ [] ∧ (unwatch g c).1.listeners = []))) := by
  refine ⟨runOps_watchInv _ ops (by simp [WatchInv, gpioInit]), ?_, ?_⟩
  · intro g cb
    obtain ⟨h1, _⟩ := watch_calls g cb
    rw [h1]
    cases hl : g.listeners with
    | nil => simp
    | cons a as => simp
  · intro g c
    obtain ⟨h1, _, _, _⟩ := unwatch_calls g c
    rw [h1]
    cases hl : g.listeners with
    | nil => simp
    | cons a as =>
      by_cases he : (unwatch g c).1.listeners = []
      · simp [List.isEmpty_iff, he]
      · simp [List.isEmpty_iff, he]

/-- C2: On the zero-to-one listener transition, `watch` registers the
descriptor with a mask that always contains `EPOLLPRI`, and contains
`EPOLLONESHOT` iff not (persistentWatch is true and debounceTimeout is
0); when listeners are already present, `watch` makes no poller call. -/
theorem watch_mask_and_transition (g : Gpio) (cb : Nat) :
    (watchEvents g.opts &&& EPOLLPRI = EPOLLPRI)
    ∧ (watchEvents g.opts &&& EPOLLONESHOT = EPOLLONESHOT ↔
        ¬(g.opts.persistentWatch = true ∧ g.opts.debounceTimeout = 0))
    ∧ (g.listeners = [] → (watch g cb).2 = [PollerCall.add (watchEvents g.opts)])
    ∧ (g.listeners ≠ [] → (watch g cb).2 = []) := by
  obtain ⟨h1, _⟩ := watch_calls g cb
  refine ⟨?_, ?_, ?_, ?_⟩
  · unfold watchEvents EPOLLPRI EPOLLONESHOT
    rcases g.opts.persistentWatch with _ | _ <;>
      rcases g.opts.debounceTimeout with _ | d <;> simp <;> decide
  · unfold watchEvents EPOLLPRI EPOLLONESHOT
    rcases hp : g.opts.persistentWatch with _ | _ <;>
      rcases hd : g.opts.debounceTimeout with _ | d <;> simp [hp, hd] <;> decide
  · intro hl; rw [h1]; simp [hl]
  · intro hl; rw [h1]; simp [List.isEmpty_iff, hl]

/-- Witness for `watch_mask_and_transition`: the zero-to-one transition
on a fresh one-shot line, and a no-op poller interaction when a listener
is already present. -/
theorem watch_mask_and_transition_witness :
    (watch (gpioInit ⟨false, 0⟩) 5).2
      = [PollerCall.add (watchEvents (⟨false, 0⟩ : Opts))]
    ∧ (watch ⟨⟨false, 0⟩, [5], 1⟩ 6).2 = [] :=
  ⟨(watch_mask_and_transition (gpioInit ⟨false, 0⟩) 5).2.2.1 rfl,
   (watch_mask_and_transition ⟨⟨false, 0⟩, [5], 1⟩ 6).2.2.2 (by decide)⟩

/-- C3: With persistentWatch false, one poller delivery (with pure
callbacks) empties the listener set and removes the poller registration,
for any number of listeners registered beforehand, and still invokes
every one of those listeners with the delivered value. -/
theorem oneshot_delivery_clears_all (g : Gpio) (v : Nat)
    (hp : g.opts.persistentWatch = false) (hinv : WatchInv g) :
    (pollerEventHandler (fun _ st => st) none v g).1.listeners = []
    ∧ (pollerEventHandler (fun _ st => st) none v g).1.regCount = 0
    ∧ (pollerEventHandler (fun _ st => st) none v g).2.invocations
        = g.listeners.map (fun c => (c, none, v))
    ∧ (g.listeners ≠ [] →
        (pollerEventHandler (fun _ st => st) none v g).2.pollerCalls
          = [PollerCall.remove]) := by
  obtain ⟨u1, u2, u3⟩ := unwatchAll_clears g hinv
  simp only [pollerEventHandler, hp, Bool.not_false, if_true, if_pos,
    runCallbacks_id_state, runCallbacks_invocations]
  exact ⟨u1, u2, trivial, u3⟩

/-- Witness for `oneshot_delivery_clears_all`: a one-shot line with two
listeners, delivered value 1. -/
theorem oneshot_delivery_clears_all_witness :
    (pollerEventHandler (fun _ st => st) none 1
        ⟨⟨false, 0⟩, [7, 8], 1⟩).1.listeners = []
    ∧ (pollerEventHandler (fun _ st => st) none 1
        ⟨⟨false, 0⟩, [7, 8], 1⟩).1.regCount = 0
    ∧ (pollerEventHandler (fun _ st => st) none 1
        ⟨⟨false, 0⟩, [7, 8], 1⟩).2.invocations = [(7, none, 1), (8, none, 1)]
    ∧ (pollerEventHandler (fun _ st => st) none 1
        ⟨⟨false, 0⟩, [7, 8], 1⟩).2.pollerCalls = [PollerCall.remove] := by
  obtain ⟨h1, h2, h3, h4⟩ :=
    oneshot_delivery_clears_all ⟨⟨false, 0⟩, [7, 8], 1⟩ 1 rfl (by decide)
  exact ⟨h1, h2, h3, h4 (by decide)⟩

/-- The debounce scenario: construct with persistentWatch true and
debounceTimeout 50, watch one callback, kernel edges at t = 0 and t = 10
with value 1, debounce timer due at t = 50. -/
def scenC4 : Sys :=
  fireTimer 50 (edgeEvent 10 1 (edgeEvent 0 1 (watchSys 0 (sysInit ⟨true, 50⟩))))

/-- C4 counterexample: in the concrete debounce scenario (D = 50, edges
10 ms apart), exactly one timer is scheduled and one re-arm occurs at
t = 50, but the callback is invoked once, not twice: the registration is
one-shot, so the second edge is not delivered while disarmed. -/
theorem debounce_scenario_single_invocation :
    scenC4.timerLog = [(0, 50)]
    ∧ scenC4.modifyLog = [50]
    ∧ scenC4.invocations = [(0, none, 1)]
    ∧ scenC4.invocations.length ≠ 2 := by decide

/-- C4 amended: with persistentWatch true and debounceTimeout D > 0, each
delivery that reaches the handler schedules exactly one timer of duration
D; an edge while the one-shot registration is disarmed delivers nothing
(so schedules no timer); and in the concrete scenario with D = 50 and two
edges 10 ms apart, one timer is scheduled at the first delivery, the
callback is invoked once, and exactly one re-arm occurs at 50 ms after
the first delivery. -/
theorem debounce_delivery_timers :
    (∀ (g : Gpio) (act : Nat → Gpio → Gpio) (e : Option String) (v : Nat),
      g.opts.persistentWatch = true → 0 < g.opts.debounceTimeout →
        (pollerEventHandler act e v g).2.timersScheduled
          = [g.opts.debounceTimeout])
    ∧ (∀ (t v : Nat) (s : Sys), s.armed = false → edgeEvent t v s = s)
    ∧ scenC4.timerLog = [(0, 50)]
    ∧ scenC4.invocations = [(0, none, 1)]
    ∧ scenC4.modifyLog = [50] := by
  refine ⟨?_, ?_, by decide, by decide, by decide⟩
  · intro g act e v hp hd
    simp [pollerEventHandler, hp, hd]
  · intro t v s hs
    simp [edgeEvent, hs]

/-- Witness for `debounce_delivery_timers`: its hypotheses discharged on
a concrete persistent line with debounceTimeout 50 and on a disarmed
system state. -/
theorem debounce_delivery_timers_witness :
    (pollerEventHandler (fun _ st => st) none 1
        ⟨⟨true, 50⟩, [0], 1⟩).2.timersScheduled = [50]
    ∧ edgeEvent 3 1 (sysInit ⟨true, 50⟩) = sysInit ⟨true, 50⟩ :=
  ⟨debounce_delivery_timers.1 ⟨⟨true, 50⟩, [0], 1⟩ (fun _ st => st) none 1 rfl
      (by decide),
   debounce_delivery_timers.2.1 3 1 (sysInit ⟨true, 50⟩) rfl⟩

/-- C5: every delivery invokes exactly the listeners present at its
start, in registration order, each with (error, value), whatever the
callbacks themselves do to the listener set; and such mutations are
visible to the next delivery: concretely, with listeners [0, 1] where
callback 0 unwatches callback 1, both are still invoked in this
delivery, but the next delivery invokes only callback 0. -/
theorem delivery_fanout_snapshot (act : Nat → Gpio → Gpio)
    (err : Option String) (v : Nat) (g : Gpio) :
    (pollerEventHandler act err v g).2.invocations
      = g.listeners.map (fun c => (c, err, v))
    ∧ (pollerEventHandler
        (fun c st => if c = 0 then (unwatch st (some 1)).1 else st) none 1
        ⟨⟨true, 0⟩, [0, 1], 1⟩).2.invocations = [(0, none, 1), (1, none, 1)]
    ∧ (pollerEventHandler
        (fun c st => if c = 0 then (unwatch st (some 1)).1 else st) none 1
        ⟨⟨true, 0⟩, [0, 1], 1⟩).1.listeners = [0]
    ∧ (pollerEventHandler (fun _ st => st) none 1
        (pollerEventHandler
          (fun c st => if c = 0 then (unwatch st (some 1)).1 else st) none 1
          ⟨⟨true, 0⟩, [0, 1], 1⟩).1).2.invocations = [(0, none, 1)] := by
  refine ⟨?_, by decide, by decide, by decide⟩
  simp [pollerEventHandler, runCallbacks_invocations]

/-- C6 counterexample: when `read` is invoked with the optional callback
omitted, an underlying I/O failure is delivered to no one — the
completion is discarded, so the error is not surfaced to the caller. -/
theorem read_error_discarded_without_callback :
    read false (Except.error "EIO") = none := rfl

/-- C6 amended: when a callback function is supplied, an underlying I/O
failure is passed to it as the error argument (and a successful read
yields the decoded bit); with the callback omitted, the completion —
error or not — is discarded. -/
theorem read_error_surfaced_with_callback (e : String) (b : Nat)
    (io : Except String Nat) :
    read true (Except.error e) = some (Except.error e)
    ∧ read true (Except.ok b) = some (Except.ok (if b = 49 then 1 else 0))
    ∧ read false io = none := by
  refine ⟨rfl, rfl, ?_⟩
  cases io <;> rfl

/-- C7 counterexample: on a one-shot line (persistentWatch false) with
one listener, a poller error delivery does change the Watch
Coordinator's state: the listener set is cleared and the poller
registration is removed, exactly as on a normal delivery. -/
theorem poller_error_clears_oneshot_state :
    (pollerEventHandler (fun _ st => st) (some "EPOLLERR") 1
        ⟨⟨false, 0⟩, [0], 1⟩).2.invocations = [(0, some "EPOLLERR", 1)]
    ∧ (pollerEventHandler (fun _ st => st) (some "EPOLLERR") 1
        ⟨⟨false, 0⟩, [0], 1⟩).1.listeners = []
    ∧ (pollerEventHandler (fun _ st => st) (some "EPOLLERR") 1
        ⟨⟨false, 0⟩, [0], 1⟩).1.regCount = 0
    ∧ (pollerEventHandler (fun _ st => st) (some "EPOLLERR") 1
        ⟨⟨false, 0⟩, [0], 1⟩).2.pollerCalls = [PollerCall.remove]
    ∧ (pollerEventHandler (fun _ st => st) (some "EPOLLERR") 1
        ⟨⟨false, 0⟩, [0], 1⟩).1 ≠ (⟨⟨false, 0⟩, [0], 1⟩ : Gpio) := by decide

/-- C7 amended: a poller error is passed as the error argument to every
listener registered at the delivery, in order; the handler treats an
error delivery exactly like a normal one, so with persistentWatch true
(and pure callbacks) the listener set, registration count and options
are unchanged and no poller call is made, while with persistentWatch
false the usual one-shot clearing applies. -/
theorem poller_error_passed_through (g : Gpio) (e : String) (v : Nat) :
    (pollerEventHandler (fun _ st => st) (some e) v g).2.invocations
      = g.listeners.map (fun c => (c, some e, v))
    ∧ (g.opts.persistentWatch = true →
        (pollerEventHandler (fun _ st => st) (some e) v g).1 = g
        ∧ (pollerEventHandler (fun _ st => st) (some e) v g).2.pollerCalls
            = []) := by
  constructor
  · simp [pollerEventHandler, runCallbacks_invocations]
  · intro hp
    constructor
    · simp [pollerEventHandler, hp, runCallbacks_id_state]
    · simp [pollerEventHandler, hp]

/-- Witness for `poller_error_passed_through`: a persistent line with one
listener receiving an error delivery. -/
theorem poller_error_passed_through_witness :
    (pollerEventHandler (fun _ st => st) (some "EPOLLERR") 1
        ⟨⟨true, 0⟩, [3], 1⟩).2.invocations = [(3, some "EPOLLERR", 1)]
    ∧ (pollerEventHandler (fun _ st => st) (some "EPOLLERR") 1
        ⟨⟨true, 0⟩, [3], 1⟩).1 = (⟨⟨true, 0⟩, [3], 1⟩ : Gpio) := by
  obtain ⟨h1, h2⟩ :=
    poller_error_passed_through ⟨⟨true, 0⟩, [3], 1⟩ "EPOLLERR" 1
  exact ⟨by simpa using h1, (h2 rfl).1⟩

/-- C8: at construction, if the line's sysfs directory already exists no
filesystem writes occur; if it does not exist, the constructor writes the
identifier to the export file, the direction to the direction file, the
edge mode to the edge file exactly when an edge mode was supplied, and
relaxes the value file's permissions to 0666. -/
theorem constructor_sysfs_writes (gpio : Nat) (direction : String)
    (edge : Option String) :
    constructorActions gpio direction edge true = []
    ∧ (edge = none →
        constructorActions gpio direction edge false =
          [FSAction.writeFile (gpioRootPath ++ "export") (toString gpio),
           FSAction.writeFile (gpioPath gpio ++ "direction") direction,
           FSAction.chmod (gpioPath gpio ++ "value") 438])
    ∧ (∀ e, edge = some e →
        constructorActions gpio direction edge false =
          [FSAction.writeFile (gpioRootPath ++ "export") (toString gpio),
           FSAction.writeFile (gpioPath gpio ++ "direction") direction,
           FSAction.writeFile (gpioPath gpio ++ "edge") e,
           FSAction.chmod (gpioPath gpio ++ "value") 438]) := by
  refine ⟨rfl, ?_, ?_⟩
  · intro he; subst he; rfl
  · intro e he; subst he; rfl

/-- Witness for `constructor_sysfs_writes`: line 7, direction "in", with
and without an edge mode. -/
theorem constructor_sysfs_writes_witness :
    constructorActions 7 "in" (some "both") true = []
    ∧ constructorActions 7 "in" none false =
        [FSAction.writeFile (gpioRootPath ++ "export") "7",
         FSAction.writeFile (gpioPath 7 ++ "direction") "in",
         FSAction.chmod (gpioPath 7 ++ "value") 438]
    ∧ constructorActions 7 "in" (some "both") false =
        [FSAction.writeFile (gpioRootPath ++ "export") "7",
         FSAction.writeFile (gpioPath 7 ++ "direction") "in",
         FSAction.writeFile (gpioPath 7 ++ "edge") "both",
         FSAction.chmod (gpioPath 7 ++ "value") 438] :=
  ⟨(constructor_sysfs_writes 7 "in" (some "both")).1,
   (constructor_sysfs_writes 7 "in" none).2.1 rfl,
   (constructor_sysfs_writes 7 "in" (some "both")).2.2 "both" rfl⟩

/-- C9 counterexample: mutating the object returned by `options()` (the
internal `this.opts`, returned by reference) does change the Line's
internal configuration and its subsequent behaviour: flipping
persistentWatch through the returned reference changes what the next
delivery does to the listener set. -/
theorem options_mutation_changes_behaviour :
    (mutateReturnedOptions ⟨⟨false, 0⟩, [0], 1⟩
        (fun o => { o with persistentWatch := true })).opts
      ≠ (⟨⟨false, 0⟩, [0], 1⟩ : Gpio).opts
    ∧ (pollerEventHandler (fun _ st => st) none 1
        (mutateReturnedOptions ⟨⟨false, 0⟩, [0], 1⟩
          (fun o => { o with persistentWatch := true }))).1.listeners
      ≠ (pollerEventHandler (fun _ st => st) none 1
          (⟨⟨false, 0⟩, [0], 1⟩ : Gpio)).1.listeners := by decide

/-- C9 amended: `options()` returns the internal options object itself
(by reference, documented "must not be modified"); a caller mutation
through the returned reference replaces the Line's configuration, and
subsequent behaviour follows the mutated configuration: concretely,
after flipping persistentWatch to true the next delivery keeps the
listener, whereas the unmutated line clears it. -/
theorem options_returns_internal_object (g : Gpio) (f : Opts → Opts) :
    options g = g.opts
    ∧ options (mutateReturnedOptions g f) = f (options g)
    ∧ (pollerEventHandler (fun _ st => st) none 1
        (mutateReturnedOptions ⟨⟨false, 0⟩, [0], 1⟩
          (fun o => { o with persistentWatch := true }))).1.listeners = [0]
    ∧ (pollerEventHandler (fun _ st => st) none 1
        (⟨⟨false, 0⟩, [0], 1⟩ : Gpio)).1.listeners = [] :=
  ⟨rfl, rfl, by decide, by decide⟩

/-- C10: for every argument value, `write` and `writeSync` write exactly
one byte at file offset 0: byte 49 (ASCII '1') when the argument is
strictly equal to the number 1, and byte 48 (ASCII '0') for every other
argument, numeric or not; no value is ever rejected. -/
theorem write_one_byte_at_offset_zero (v : JSVal) :
    (writeSync v).length = 1
    ∧ (writeSync v).position = 0
    ∧ (writeSync v).bufOffset = 0
    ∧ (writeSync v).buf = [if v = JSVal.num 1 then 49 else 48]
    ∧ write v = writeSync v := by
  unfold writeSync write one zero
  by_cases h : v = JSVal.num 1 <;> simp [h]

end Onoff
